import Mathlib

/-!
# go-oauth-boilerplate: token lifecycle and session state

A shallow embedding of the Go sources

* `internal/utils/jwt.go`            (`JWTExpiration`, `GenerateJWT`, `GenerateRefreshToken`)
* `internal/utils/response.go`       (`SendResponse`)
* `internal/auth/repository`         (`FindByEmail`, `Create`, `FindOrCreateUserByProvider`)
* `internal/auth/usecase`            (`Register`, `Login`, `Logout`, `RefreshToken`,
                                      `HandleGoogleCallback`, `fetchUserInfo`)
* `internal/auth/handler`            (`Logout`, `GoogleCallback`)
* `internal/middleware/middleware.go` (`AuthMiddleware`)

Conventions.

* Go `string` is Lean `String`; `uint` is `Nat`; `error` is `Option String`
  (`none` is `nil`), and `fmt.Errorf("msg: %w", err)` is `"msg: " ++ err`.
* `time.Time` is an `Int` counting nanoseconds since the Unix epoch and
  `time.Duration` is an `Int` counting nanoseconds.
* Everything outside the repository (the Redis server and client, the SQL
  database, the JWT library, bcrypt, the random source, the OAuth2 provider,
  the process environment and the clock) is supplied by an `Ext` record: the
  behaviour of the collaborators during one call.  Mutable state (the `users`
  table, the Redis keyspace, the package-level OAuth configuration) lives in
  `World`, together with a `trace` of every collaborator invocation.
* A store command that returns an error leaves the store unchanged.
* The go-redis client sends a time to live in whole milliseconds or whole
  seconds (`usePrecise`, `formatMs`, `formatSec`), and only for a positive
  expiration; the server refuses an expiry argument that is not positive.
* `time.Until(time.Now().Add(d))` reads the clock twice; the two readings are
  `Ext.now` and `Ext.nowUntil`.
-/

namespace GoOAuth

/-! ## Data model -/

/-- Go `time.Duration`: a count of nanoseconds. -/
abbrev Duration := Int

/-- Go `time.Second`. -/
def Second : Duration := 1000000000

/-- Go `time.Millisecond`. -/
def Millisecond : Duration := 1000000

/-- Go `time.Hour`. -/
def Hour : Duration := 3600 * Second

/-- The largest `time.Duration`, an int64. -/
def maxDuration : Duration := 2 ^ 63 - 1

/-- The smallest `time.Duration`, an int64. -/
def minDuration : Duration := -(2 ^ 63)

/-- Go `Time.Sub` returns the maximum (or minimum) duration when the difference
of the two instants does not fit a `time.Duration`. -/
def saturate (d : Int) : Duration :=
  if maxDuration < d then maxDuration else if d < minDuration then minDuration else d

/-- The record `entity.User`. -/
structure User where
  ID : Nat
  Email : String
  Password : String
  Name : String
  Provider : String
  ProviderID : String
deriving DecidableEq, Repr

/-- The record `entity.GoogleUserInfo` as far as the use case reads it. -/
structure GoogleUserInfo where
  GoogleID : String
  Email : String
  Name : String
deriving DecidableEq, Repr

/-- The record `dto.RegisterRequest`. -/
structure RegisterRequest where
  Email : String
  Password : String
  Name : String
deriving DecidableEq, Repr

/-- The record `dto.GoogleCallbackResponse`. -/
structure GoogleCallbackResponse where
  Email : String
  Name : String
deriving DecidableEq, Repr

/-- The `jwt.MapClaims` literal built by `GenerateJWT`: the two keys `user_id`
and `exp` with the numbers stored under them. -/
structure Claims where
  user_id : Nat
  exp : Int
deriving DecidableEq, Repr

/-- What `jwt.Parse` hands back: the `Valid` flag, whether `Claims` is a
`jwt.MapClaims`, and the number found under `user_id` (`none` when the key is
missing or not a JSON number, in which case the type assertion panics). -/
structure Token where
  Valid : Bool
  isMapClaims : Bool
  user_id : Option Nat
deriving DecidableEq, Repr

/-- The struct `oauth2.Config` built by `initGoogleOAuthConfig`. -/
structure OAuthConfig where
  ClientID : String
  ClientSecret : String
  RedirectURL : String
  Scopes : List String
deriving DecidableEq, Repr

/-- One key of the Redis keyspace: the value and the instant at which the
server drops it (`none`: it never expires). -/
structure RedisEntry where
  value : String
  expireAt : Option Int
deriving DecidableEq, Repr

/-- Every call that leaves the repository's own code. -/
inductive Event where
  | dbFindByEmail (email : String)
  | dbCreate (u : User)
  | dbFindByProvider (provider providerID : String)
  | dbInsertProvider (email name provider providerID : String)
  | hashPassword (password : String)
  | checkPasswordHash (password hash : String)
  | signedString (claims : Claims) (secret : String)
  | jwtParse (tokenString secret : String)
  | randRead
  | redisGet (key : String)
  | redisSet (key value : String) (expiration : Duration)
  | redisDel (key : String)
  | oauthExchange (code : String)
  | httpGet (url : String)
deriving DecidableEq, Repr

/-- The mutable state shared by all requests. -/
structure World where
  users : List User
  redis : String → Option RedisEntry
  googleOauthConfig : Option OAuthConfig
  trace : List Event

/-- The collaborators as they behave during one call. -/
structure Ext where
  /-- The function `config.GetEnv`. -/
  getEnv : String → String
  /-- The function `time.ParseDuration`. -/
  ParseDuration : String → Except String Duration
  /-- The first `time.Now()` of the call. -/
  now : Int
  /-- The `time.Now()` read inside `time.Until`. -/
  nowUntil : Int
  /-- The Redis server clock while it serves the call. -/
  redisNow : Int
  /-- The function `utils.HashPassword`. -/
  HashPassword : String → Except String String
  /-- The function `utils.CheckPasswordHash`. -/
  CheckPasswordHash : String → String → Bool
  /-- The method `token.SignedString` for an HS256 token over the claims. -/
  SignedString : Claims → String → Except String String
  /-- The function `jwt.Parse` with a key function that returns the secret. -/
  Parse : String → String → Except String Token
  /-- The call `rand.Read` on a 32 byte buffer. -/
  randRead : Except String (List Nat)
  /-- The function `base64.URLEncoding.EncodeToString`. -/
  EncodeToString : List Nat → String
  /-- A driver error (other than `sql.ErrNoRows`) of the SELECT of the call. -/
  dbSelectErr : Option String
  /-- The outcome of the INSERT of the call: the id it returns, or an error. -/
  dbInsert : Except String Nat
  /-- Transport errors of the Redis commands of the call. -/
  redisGetErr : Option String
  redisSetErr : Option String
  redisDelErr : Option String
  /-- The method `oauth2.Config.Exchange`: the provider access token. -/
  Exchange : OAuthConfig → String → Except String String
  /-- The call `http.Get`: status code and body. -/
  httpGet : String → Except String (Nat × String)
  /-- Decoding the profile body with `json.NewDecoder(..).Decode`. -/
  decodeUserInfo : String → Except String GoogleUserInfo

/-- Append an event to the trace. -/
def World.log (w : World) (e : Event) : World :=
  { w with trace := w.trace ++ [e] }

/-! ## Session store (go-redis client against a Redis server) -/

/-- Whether an entry is still held by the server at instant `t`. -/
def RedisEntry.live (e : RedisEntry) (t : Int) : Bool :=
  match e.expireAt with
  | none => true
  | some d => decide (t < d)

/-- The value the server holds under `key` at instant `t`, if any. -/
def World.held (w : World) (t : Int) (key : String) : Option String :=
  match w.redis key with
  | none => none
  | some ent => if ent.live t then some ent.value else none

/-- The call `redisClient.Get(key).Result()`: the value, or an error (the
error `redis: nil` when the key is absent or expired). -/
def redisGet (x : Ext) (key : String) (w : World) : Except String String × World :=
  let w := w.log (.redisGet key)
  match x.redisGetErr with
  | some e => (.error e, w)
  | none =>
    match w.held x.redisNow key with
    | none => (.error "redis: nil", w)
    | some value => (.ok value, w)

/-- The function `usePrecise` of the go-redis client: whether a time to live
is sent in milliseconds rather than in seconds. -/
def usePrecise (dur : Duration) : Bool :=
  decide (dur < Second ∨ dur % Second ≠ 0)

/-- The function `formatMs` of the go-redis client: whole milliseconds, the
rest is dropped.  It is only applied to positive durations. -/
def formatMs (dur : Duration) : Int :=
  dur / Millisecond

/-- The function `formatSec` of the go-redis client: whole seconds.  It is
only applied to positive durations. -/
def formatSec (dur : Duration) : Int :=
  dur / Second

/-- The expiry argument the go-redis client appends to a SET command. -/
inductive SetExpiry where
  | absent
  | px (milliseconds : Int)
  | ex (seconds : Int)
deriving DecidableEq, Repr

/-- The expiry argument of `redisClient.Set(key, value, expiration)`: none
unless `expiration > 0`, then `px` with whole milliseconds when `usePrecise`
says so and `ex` with whole seconds otherwise. -/
def setExpiry (expiration : Duration) : SetExpiry :=
  if 0 < expiration then
    if usePrecise expiration then .px (formatMs expiration) else .ex (formatSec expiration)
  else
    .absent

/-- The time to live an expiry argument asks of the server. -/
def SetExpiry.ttl : SetExpiry → Option Duration
  | .absent => none
  | .px milliseconds => some (milliseconds * Millisecond)
  | .ex seconds => some (seconds * Second)

/-- The call `redisClient.Set(key, value, expiration).Err()`.  The server
refuses an expiry argument that is not positive (a positive `expiration` below
one millisecond goes out as `px 0`) and otherwise stores the value, to be
dropped once the time to live it was sent has passed. -/
def redisSet (x : Ext) (key value : String) (expiration : Duration) (w : World) :
    Option String × World :=
  let w := w.log (.redisSet key value expiration)
  match x.redisSetErr with
  | some e => (some e, w)
  | none =>
    match (setExpiry expiration).ttl with
    | none =>
      let ent : RedisEntry := { value := value, expireAt := none }
      (none, { w with redis := fun k => if k = key then some ent else w.redis k })
    | some ttl =>
      if ttl ≤ 0 then
        (some "ERR invalid expire time in set", w)
      else
        let ent : RedisEntry := { value := value, expireAt := some (x.redisNow + ttl) }
        (none, { w with redis := fun k => if k = key then some ent else w.redis k })

/-- The call `redisClient.Del(key).Err()`. -/
def redisDel (x : Ext) (key : String) (w : World) : Option String × World :=
  let w := w.log (.redisDel key)
  match x.redisDelErr with
  | some e => (some e, w)
  | none => (none, { w with redis := fun k => if k = key then none else w.redis k })

/-- The key `fmt.Sprintf("user:%d:refresh_token", userID)`. -/
def refreshKey (userID : Nat) : String :=
  "user:" ++ toString userID ++ ":refresh_token"

/-! ## `internal/utils/jwt.go` -/

/-- The function `utils.JWTExpiration`. -/
def JWTExpiration (x : Ext) : Duration :=
  let expirationStr := x.getEnv "JWT_EXPIRATION"
  if expirationStr = "" then
    24 * Hour
  else
    match x.ParseDuration expirationStr with
    | .error _ => 24 * Hour
    | .ok expiration => expiration

/-- The claims literal of `utils.GenerateJWT`. -/
def jwtClaims (x : Ext) (userID : Nat) : Claims :=
  { user_id := userID, exp := JWTExpiration x }

/-- The function `utils.GenerateJWT`. -/
def GenerateJWT (x : Ext) (userID : Nat) (w : World) : Except String String × World :=
  let claims := jwtClaims x userID
  let secret := x.getEnv "JWT_SECRET"
  (x.SignedString claims secret, w.log (.signedString claims secret))

/-- The function `utils.GenerateRefreshToken`. -/
def GenerateRefreshToken (x : Ext) (w : World) : Except String String × World :=
  let w := w.log .randRead
  match x.randRead with
  | .error e => (.error ("failed to generate refresh token: " ++ e), w)
  | .ok token => (.ok (x.EncodeToString token), w)

/-- The instant a JWT library reads from an `exp` claim: the claim is a
NumericDate, a number of seconds since the Unix epoch. -/
def expInstant (c : Claims) : Int :=
  c.exp * Second

/-! ## `internal/auth/repository/auth_repository.go` -/

/-- The method `UserRepository.FindByEmail`: the first row whose email is the
one asked for.  The Go function returns either a user and a nil error, or a
nil user and an error. -/
def FindByEmail (x : Ext) (email : String) (w : World) : Except String User × World :=
  let w := w.log (.dbFindByEmail email)
  match x.dbSelectErr with
  | some e => (.error ("failed to find user: " ++ e), w)
  | none =>
    match w.users.find? (fun u => decide (u.Email = email)) with
    | none => (.error "user not found", w)
    | some user => (.ok user, w)

/-- The method `UserRepository.Create`: on success the row is stored under the
id the database returns, and that id is written back into the user. -/
def Create (x : Ext) (user : User) (w : World) : Except String User × World :=
  let w := w.log (.dbCreate user)
  match x.dbInsert with
  | .error e => (.error ("failed to create user: " ++ e), w)
  | .ok id =>
    let user := { user with ID := id }
    (.ok user, { w with users := w.users ++ [user] })

/-- The method `UserRepository.FindOrCreateUserByProvider`. -/
def FindOrCreateUserByProvider (x : Ext) (provider email providerID name : String) (w : World) :
    Except String User × World :=
  let w := w.log (.dbFindByProvider provider providerID)
  let found : Option User :=
    match x.dbSelectErr with
    | some _ => none
    | none => w.users.find? (fun u => decide (u.Provider = provider ∧ u.ProviderID = providerID))
  match found with
  | some row =>
    (.ok { ID := row.ID, Email := row.Email, Password := "", Name := row.Name,
           Provider := row.Provider, ProviderID := row.ProviderID }, w)
  | none =>
    let w := w.log (.dbInsertProvider email name provider providerID)
    match x.dbInsert with
    | .error e => (.error ("failed to create user: " ++ e), w)
    | .ok id =>
      let user : User :=
        { ID := id, Email := email, Password := "", Name := name,
          Provider := provider, ProviderID := providerID }
      (.ok user, { w with users := w.users ++ [user] })

/-! ## `internal/auth/usecase/auth_usecase.go` -/

namespace AuthUseCase

/-- The method `AuthUseCase.Register`: access token, refresh token, error. -/
def Register (x : Ext) (req : RegisterRequest) (w : World) :
    (String × String × Option String) × World :=
  let (existingUser, w) := FindByEmail x req.Email w
  match existingUser with
  | .ok _ => (("", "", some "user already exists"), w)
  | .error _ =>
    let w := w.log (.hashPassword req.Password)
    match x.HashPassword req.Password with
    | .error e => (("", "", some ("failed to hash password: " ++ e)), w)
    | .ok hashedPassword =>
      let user : User :=
        { ID := 0, Email := req.Email, Password := hashedPassword, Name := req.Name,
          Provider := "", ProviderID := "" }
      let (created, w) := Create x user w
      match created with
      | .error e => (("", "", some ("failed to create user: " ++ e)), w)
      | .ok user =>
        let (accessToken, w) := GenerateJWT x user.ID w
        match accessToken with
        | .error e => (("", "", some ("failed to generate access token: " ++ e)), w)
        | .ok accessToken =>
          let (refreshToken, w) := GenerateRefreshToken x w
          match refreshToken with
          | .error e => (("", "", some ("failed to generate refresh token: " ++ e)), w)
          | .ok refreshToken =>
            let key := refreshKey user.ID
            let (err, w) := redisSet x key refreshToken (JWTExpiration x) w
            match err with
            | some e => (("", "", some ("failed to store refresh token: " ++ e)), w)
            | none => ((accessToken, refreshToken, none), w)

/-- The method `AuthUseCase.Login`: access token, refresh token, error. -/
def Login (x : Ext) (email password : String) (w : World) :
    (String × String × Option String) × World :=
  let (found, w) := FindByEmail x email w
  match found with
  | .error e => (("", "", some ("user not found: " ++ e)), w)
  | .ok user =>
    let w := w.log (.checkPasswordHash password user.Password)
    if ¬ x.CheckPasswordHash password user.Password then
      (("", "", some "invalid credentials"), w)
    else
      let (accessToken, w) := GenerateJWT x user.ID w
      match accessToken with
      | .error e => (("", "", some ("failed to generate access token: " ++ e)), w)
      | .ok accessToken =>
        let (refreshToken, w) := GenerateRefreshToken x w
        match refreshToken with
        | .error e => (("", "", some ("failed to generate refresh token: " ++ e)), w)
        | .ok refreshToken =>
          let key := refreshKey user.ID
          let (err, w) := redisSet x key refreshToken (JWTExpiration x) w
          match err with
          | some e => (("", "", some ("failed to store refresh token: " ++ e)), w)
          | none => ((accessToken, refreshToken, none), w)

/-- The method `AuthUseCase.Logout`. -/
def Logout (x : Ext) (userID : Nat) (accessToken : String) (w : World) : Option String × World :=
  let expiration : Duration := saturate ((x.now + JWTExpiration x) - x.nowUntil)
  let (err, w) := redisSet x ("blacklist:" ++ accessToken) (toString userID) expiration w
  match err with
  | some e => (some ("failed to blacklist token: " ++ e), w)
  | none =>
    let (err, w) := redisDel x (refreshKey userID) w
    match err with
    | some e => (some ("failed to remove refresh token: " ++ e), w)
    | none => (none, w)

/-- The method `AuthUseCase.RefreshToken`: new access token, error. -/
def RefreshToken (x : Ext) (userID : Nat) (refreshToken : String) (w : World) :
    (String × Option String) × World :=
  let (stored, w) := redisGet x (refreshKey userID) w
  match stored with
  | .error e => (("", some ("invalid or expired refresh token: " ++ e)), w)
  | .ok storedRefreshToken =>
    if storedRefreshToken ≠ refreshToken then
      (("", some "invalid refresh token"), w)
    else
      let (newAccessToken, w) := GenerateJWT x userID w
      match newAccessToken with
      | .error e => (("", some ("failed to generate access token: " ++ e)), w)
      | .ok newAccessToken => ((newAccessToken, none), w)

/-- The function `fetchUserInfo`. -/
def fetchUserInfo (x : Ext) (accessToken : String) (w : World) :
    Except String GoogleUserInfo × World :=
  let url := "https://www.googleapis.com/oauth2/v2/userinfo?access_token=" ++ accessToken
  let w := w.log (.httpGet url)
  match x.httpGet url with
  | .error e => (.error ("failed to get user info: " ++ e), w)
  | .ok (statusCode, body) =>
    if statusCode ≠ 200 then
      (.error ("failed to get user info: status code " ++ toString statusCode), w)
    else
      match x.decodeUserInfo body with
      | .error e => (.error ("failed to decode user info: " ++ e), w)
      | .ok userInfo => (.ok userInfo, w)

/-- The method `AuthUseCase.HandleGoogleCallback`: access token, refresh
token, user summary, error. -/
def HandleGoogleCallback (x : Ext) (code : String) (googleOauthConfig : OAuthConfig) (w : World) :
    (String × String × Option GoogleCallbackResponse × Option String) × World :=
  let w := w.log (.oauthExchange code)
  match x.Exchange googleOauthConfig code with
  | .error e => (("", "", none, some ("failed to exchange token: " ++ e)), w)
  | .ok token =>
    let (userInfo, w) := fetchUserInfo x token w
    match userInfo with
    | .error e => (("", "", none, some ("failed to fetch user info: " ++ e)), w)
    | .ok userInfo =>
      let (user, w) :=
        FindOrCreateUserByProvider x "google" userInfo.Email userInfo.GoogleID userInfo.Name w
      match user with
      | .error e => (("", "", none, some ("failed to create/update user: " ++ e)), w)
      | .ok user =>
        let (accessToken, w) := GenerateJWT x user.ID w
        match accessToken with
        | .error e => (("", "", none, some ("failed to generate access token: " ++ e)), w)
        | .ok accessToken =>
          let (refreshToken, w) := GenerateRefreshToken x w
          match refreshToken with
          | .error e => (("", "", none, some ("failed to generate refresh token: " ++ e)), w)
          | .ok refreshToken =>
            let key := refreshKey user.ID
            let (err, w) := redisSet x key refreshToken (JWTExpiration x) w
            match err with
            | some e => (("", "", none, some ("failed to store refresh token: " ++ e)), w)
            | none =>
              let userData : GoogleCallbackResponse := { Email := user.Email, Name := user.Name }
              ((accessToken, refreshToken, some userData, none), w)

end AuthUseCase

/-! ## The gin request context -/

/-- The `data` argument of `SendResponse` as the handlers below use it. -/
inductive Data where
  | nil
  | googleLogin (access_token refresh_token : String) (user : Option GoogleCallbackResponse)
deriving DecidableEq, Repr

/-- The struct `utils.Response`. -/
structure Response where
  Error : Bool
  Code : Nat
  Message : String
  Data : Data
deriving DecidableEq, Repr

/-- What has been written to the client: a JSON envelope under a status code,
or a bare status code. -/
inductive Written where
  | json (code : Nat) (body : Response)
  | status (code : Nat)
deriving DecidableEq, Repr

/-- The part of `gin.Context` the code touches: request headers, query
parameters, the key store of `c.Set` and `c.Get`, the position in the handler
chain, and the responses written so far. -/
structure Context where
  header : String → String
  query : String → String
  keys : String → Option Nat
  index : Int
  written : List Written

/-- The constant `abortIndex` of gin. -/
def abortIndex : Int := 63

/-- The method `c.GetHeader`. -/
def Context.GetHeader (c : Context) (key : String) : String := c.header key

/-- The method `c.Query`. -/
def Context.Query (c : Context) (key : String) : String := c.query key

/-- The method `c.Get`. -/
def Context.Get (c : Context) (key : String) : Option Nat := c.keys key

/-- The method `c.Set`. -/
def Context.Set (c : Context) (key : String) (value : Nat) : Context :=
  { c with keys := fun k => if k = key then some value else c.keys k }

/-- The method `c.Abort`. -/
def Context.Abort (c : Context) : Context :=
  { c with index := abortIndex }

/-- The method `c.JSON`. -/
def Context.JSON (c : Context) (code : Nat) (body : Response) : Context :=
  { c with written := c.written ++ [.json code body] }

/-- The method `c.AbortWithStatus`, as gin's recovery handler calls it after
a panic. -/
def Context.AbortWithStatus (c : Context) (code : Nat) : Context :=
  { c with index := abortIndex, written := c.written ++ [.status code] }

/-- The function `utils.SendResponse`. -/
def SendResponse (c : Context) (code : Nat) (message : String) (data : Data) (err : Bool) :
    Context :=
  let response : Response := { Code := code, Message := message, Data := data, Error := err }
  c.JSON code response

/-- One run of a handler: the context and the world before and after. -/
abbrev Step := Context → World → Context × World

/-- A `gin.HandlerFunc`; its argument is what `c.Next()` does for it. -/
abbrev HandlerFunc := Step → Step

/-- The loop `for c.index < len(c.handlers)` of `c.Next`, over the handlers
from position `pos` on: the handler at `c.index` runs, then the index moves on. -/
def runHandlers : List HandlerFunc → Int → Step
  | [], _, c, w => (c, w)
  | h :: rest, pos, c, w =>
    if c.index = pos then
      let r := h (fun c1 w1 => runHandlers rest (pos + 1) { c1 with index := c1.index + 1 } w1) c w
      runHandlers rest (pos + 1) { r.1 with index := r.1.index + 1 } r.2
    else
      runHandlers rest (pos + 1) c w

/-- Serving a request through a chain of handlers: the index starts before the
first handler and `c.Next()` is called once. -/
def serve (handlers : List HandlerFunc) : Step := fun c w =>
  runHandlers handlers 0 { c with index := 0 } w

/-- A final handler, one that never calls `c.Next()`. -/
def endpoint (h : Step) : HandlerFunc := fun _ => h

/-- Go `strings.TrimPrefix`. -/
def TrimPrefix (s pre : String) : String :=
  if pre.data.isPrefixOf s.data then ⟨s.data.drop pre.data.length⟩ else s

/-! ## `internal/middleware/middleware.go` -/

/-- The handler returned by `middleware.AuthMiddleware`. -/
def AuthMiddleware (x : Ext) : HandlerFunc := fun next c w =>
  let authHeader := c.GetHeader "Authorization"
  if authHeader = "" then
    ((SendResponse c 401 "Authorization header is required" .nil true).Abort, w)
  else
    let tokenString := TrimPrefix authHeader "Bearer "
    if tokenString = authHeader then
      ((SendResponse c 401 "Invalid token format" .nil true).Abort, w)
    else
      let (blacklisted, w) := redisGet x ("blacklist:" ++ tokenString) w
      match blacklisted with
      | .ok _ => ((SendResponse c 401 "Token is blacklisted" .nil true).Abort, w)
      | .error _ =>
        let secret := x.getEnv "JWT_SECRET"
        let w := w.log (.jwtParse tokenString secret)
        match x.Parse tokenString secret with
        | .error _ => ((SendResponse c 401 "Invalid token" .nil true).Abort, w)
        | .ok token =>
          if ¬ token.Valid then
            ((SendResponse c 401 "Invalid token" .nil true).Abort, w)
          else if ¬ token.isMapClaims then
            ((SendResponse c 401 "Invalid token claims" .nil true).Abort, w)
          else
            match token.user_id with
            | none => (c.AbortWithStatus 500, w)
            | some userID => next (c.Set "userID" userID) w

/-! ## `internal/auth/handler/auth_handler.go` -/

namespace AuthHandler

/-- The package variable `randomState`. -/
def randomState : String := "random"

/-- The function `initGoogleOAuthConfig`: the first call builds the package
level configuration from the environment, later calls leave it alone.  The
configuration in force is returned with the world. -/
def initGoogleOAuthConfig (x : Ext) (w : World) : OAuthConfig × World :=
  match w.googleOauthConfig with
  | some cfg => (cfg, w)
  | none =>
    let cfg : OAuthConfig :=
      { ClientID := x.getEnv "GOOGLE_CLIENT_ID"
        ClientSecret := x.getEnv "GOOGLE_CLIENT_SECRET"
        RedirectURL := x.getEnv "GOOGLE_REDIRECT_URL"
        Scopes := ["openid", "profile", "email"] }
    (cfg, { w with googleOauthConfig := some cfg })

/-- The method `AuthHandler.GoogleCallback`. -/
def GoogleCallback (x : Ext) : Step := fun c w =>
  let (googleOauthConfig, w) := initGoogleOAuthConfig x w
  let state := c.Query "state"
  if state ≠ randomState then
    (SendResponse c 400 "Invalid state" .nil true, w)
  else
    let code := c.Query "code"
    let (r, w) := AuthUseCase.HandleGoogleCallback x code googleOauthConfig w
    match r with
    | (_, _, _, some err) => (SendResponse c 500 err .nil true, w)
    | (accessToken, refreshToken, user, none) =>
      (SendResponse c 200 "Login successful" (.googleLogin accessToken refreshToken user) false, w)

/-- The method `AuthHandler.Logout`. -/
def Logout (x : Ext) : Step := fun c w =>
  match c.Get "userID" with
  | none => (SendResponse c 401 "Unauthorized" .nil true, w)
  | some userID =>
    let accessToken := c.GetHeader "Authorization"
    if accessToken = "" then
      (SendResponse c 400 "Authorization header is required" .nil true, w)
    else
      let (err, w) := AuthUseCase.Logout x userID accessToken w
      match err with
      | some e => (SendResponse c 500 e .nil true, w)
      | none => (SendResponse c 200 "Logout successful" .nil false, w)

end AuthHandler

/-- A route of the protected group of `routes.SetupRoutes`: the Access Guard,
then the guarded handler. -/
def protectedRoute (x : Ext) (handler : Step) : Step :=
  serve [AuthMiddleware x, endpoint handler]

/-- The protected route `POST /auth/logout` of `routes.SetupRoutes`. -/
def logoutRoute (x : Ext) : Step :=
  protectedRoute x (AuthHandler.Logout x)

/-- The public route `GET /auth/login/google/callback` of `routes.SetupRoutes`. -/
def googleCallbackRoute (x : Ext) : Step :=
  serve [endpoint (AuthHandler.GoogleCallback x)]

/-! ## Concrete collaborators used to evaluate the code -/

/-- Collaborators that all succeed: no `JWT_EXPIRATION` is set, the clock reads
1700000000 seconds after the epoch, the JWT library accepts the token `abc`
as a valid token of subject 7. -/
def demoExt : Ext :=
  { getEnv := fun _ => ""
    ParseDuration := fun _ => .error "time: invalid duration"
    now := 1700000000 * Second
    nowUntil := 1700000000 * Second
    redisNow := 1700000000 * Second
    HashPassword := fun p => .ok ("hash:" ++ p)
    CheckPasswordHash := fun p h => decide (h = "hash:" ++ p)
    SignedString := fun c _ => .ok ("jwt:" ++ toString c.user_id)
    Parse := fun t _ =>
      if t = "abc" then .ok { Valid := true, isMapClaims := true, user_id := some 7 }
      else .error "token contains an invalid number of segments"
    randRead := .ok [0]
    EncodeToString := fun _ => "AA=="
    dbSelectErr := none
    dbInsert := .ok 1
    redisGetErr := none
    redisSetErr := none
    redisDelErr := none
    Exchange := fun _ _ => .error "oauth2: cannot fetch token"
    httpGet := fun _ => .error "connection refused"
    decodeUserInfo := fun _ => .error "EOF" }

/-- An empty database and an empty Redis keyspace. -/
def demoWorld : World :=
  { users := [], redis := fun _ => none, googleOauthConfig := none, trace := [] }

/-- A fresh request whose only header is `Authorization`. -/
def demoRequest (authorization : String) : Context :=
  { header := fun k => if k = "Authorization" then authorization else ""
    query := fun _ => ""
    keys := fun _ => none
    index := -1
    written := [] }

/-- A guarded handler that answers 200 "handler ran". -/
def demoHandler : Step := fun c w =>
  (SendResponse c 200 "handler ran" .nil false, w)

/-- A Redis keyspace that holds a blacklist entry for the token `abc`. -/
def blacklistedWorld : World :=
  { demoWorld with
    redis := fun k => if k = "blacklist:abc" then some { value := "7", expireAt := none } else none }

/-- Collaborators as in `demoExt`, except that the Redis lookup fails. -/
def lookupFailsExt : Ext :=
  { demoExt with redisGetErr := some "i/o timeout" }

/-- A user table with one password user, subject 7. -/
def registeredWorld : World :=
  { demoWorld with
    users := [{ ID := 7, Email := "a@x.com", Password := "hash:pw", Name := "A",
                Provider := "", ProviderID := "" }] }

/-- Collaborators as in `demoExt`, except that the random source yields
another refresh token. -/
def secondLoginExt : Ext :=
  { demoExt with EncodeToString := fun _ => "BB==" }

/-- A Redis keyspace that holds the refresh token `AA==` for subject 7. -/
def refreshWorld : World :=
  { demoWorld with
    redis := fun k =>
      if k = "user:7:refresh_token" then some { value := "AA==", expireAt := none } else none }

/-- Collaborators as in `demoExt`, except that signing fails. -/
def signFailsExt : Ext :=
  { demoExt with SignedString := fun _ _ => .error "key is of an invalid type" }

/-- Collaborators as in `demoExt`, except that the SELECT fails with a driver
error and the INSERT is refused by the database. -/
def selectFailsExt : Ext :=
  { demoExt with
    dbSelectErr := some "driver: bad connection"
    dbInsert := .error "duplicate key value violates unique constraint" }

/-- The registration request for `a@x.com`. -/
def demoRegister : RegisterRequest :=
  { Email := "a@x.com", Password := "pw", Name := "A" }

/-- Collaborators as in `demoExt`, with `JWT_EXPIRATION` set to `-30m`, which
`time.ParseDuration` reads as minus 1800 seconds. -/
def negativeTTLExt : Ext :=
  { demoExt with
    getEnv := fun k => if k = "JWT_EXPIRATION" then "-30m" else ""
    ParseDuration := fun s =>
      if s = "-30m" then .ok (-1800 * Second)
      else .error ("time: invalid duration " ++ s) }

/-- Collaborators as in `demoExt`, with `JWT_EXPIRATION` set to `soon`, which
`time.ParseDuration` does not accept. -/
def unparsableTTLExt : Ext :=
  { demoExt with
    getEnv := fun k => if k = "JWT_EXPIRATION" then "soon" else ""
    ParseDuration := fun s => .error ("time: invalid duration " ++ s) }

/-- Collaborators as in `secondLoginExt`, with `JWT_EXPIRATION` set to
`1h0m0.0005s`, which `time.ParseDuration` reads as 3600000500000 nanoseconds. -/
def fractionalTTLExt : Ext :=
  { secondLoginExt with
    getEnv := fun k => if k = "JWT_EXPIRATION" then "1h0m0.0005s" else ""
    ParseDuration := fun s =>
      if s = "1h0m0.0005s" then .ok 3600000500000
      else .error ("time: invalid duration " ++ s) }

/-- Collaborators as in `demoExt`, 3600 seconds later on the Redis server
clock. -/
def hourLaterExt : Ext :=
  { demoExt with redisNow := (1700000000 + 3600) * Second }

/-- Collaborators as in `demoExt`, with `JWT_EXPIRATION` set to `500us`, which
`time.ParseDuration` reads as 500000 nanoseconds. -/
def subMillisecondTTLExt : Ext :=
  { demoExt with
    getEnv := fun k => if k = "JWT_EXPIRATION" then "500us" else ""
    ParseDuration := fun s =>
      if s = "500us" then .ok 500000
      else .error ("time: invalid duration " ++ s) }

/-! ## Lemmas on strings -/

theorem TrimPrefix_append (p t : String) : TrimPrefix (p ++ t) p = t := by
  have h : p.data.isPrefixOf (p ++ t).data = true := by
    rw [List.isPrefixOf_iff_prefix, String.data_append]
    exact List.prefix_append _ _
  simp [TrimPrefix, h, String.data_append]

theorem TrimPrefix_eq_self_iff (s p : String) (hp : p ≠ "") :
    TrimPrefix s p = s ↔ ∀ t, s ≠ p ++ t := by
  constructor
  · intro h t ht
    subst ht
    rw [TrimPrefix_append] at h
    have h1 := congrArg String.length h
    rw [String.length_append] at h1
    have h2 : p.length = 0 := by omega
    apply hp
    apply String.ext
    exact List.length_eq_zero.mp h2
  · intro h
    unfold TrimPrefix
    split
    · rename_i hpre
      rw [List.isPrefixOf_iff_prefix] at hpre
      obtain ⟨r, hr⟩ := hpre
      exact absurd (String.ext (by simp [String.data_append, hr]) : s = p ++ ⟨r⟩) (h _)
    · rfl

theorem TrimPrefix_bearer_ne (t : String) :
    TrimPrefix ("Bearer " ++ t) "Bearer " ≠ "Bearer " ++ t := by
  intro h
  exact ((TrimPrefix_eq_self_iff _ _ (by decide)).mp h) t rfl

theorem bearer_append_ne_empty (t : String) : "Bearer " ++ t ≠ "" := by
  intro h
  have h1 := congrArg String.length h
  rw [String.length_append] at h1
  have h7 : "Bearer ".length = 7 := by decide
  have h0 : "".length = 0 := by decide
  omega

theorem ne_bearer_append (t : String) : t ≠ "Bearer " ++ t := by
  intro h
  have h1 := congrArg String.length h
  rw [String.length_append] at h1
  have h7 : "Bearer ".length = 7 := by decide
  omega

theorem ne_bearer_of_take (s : String) (h : s.data.take 7 ≠ "Bearer ".data) :
    ∀ t, s ≠ "Bearer " ++ t := by
  intro t ht
  apply h
  subst ht
  rw [String.data_append]
  exact List.take_left' (by decide)

/-! ## Lemmas on the session store -/

/-- A SET that returns an error has changed nothing but the trace. -/
theorem redisSet_error (x : Ext) (key value : String) (d : Duration) (w : World)
    (h : (redisSet x key value d w).1 ≠ none) :
    (redisSet x key value d w).2 = w.log (.redisSet key value d) := by
  unfold redisSet at h ⊢
  cases hs : x.redisSetErr with
  | some e => simp [hs]
  | none =>
    simp only [hs] at h ⊢
    cases ht : (setExpiry d).ttl with
    | none => simp [ht] at h
    | some ttl =>
      simp only [ht] at h ⊢
      split
      · rfl
      · rename_i hpos
        simp [hpos] at h

/-! ## The handler chain -/

/-- When the first handler of a two handler chain leaves the context aborted,
the second handler does not run. -/
theorem serve_of_abort (g : HandlerFunc) (handler : Step) (c : Context) (w : World)
    (c1 : Context) (w1 : World)
    (hg : ∀ next, g next { c with index := 0 } w = (c1, w1))
    (hi : c1.index = abortIndex) :
    serve [g, endpoint handler] c w = ({ c1 with index := abortIndex + 1 }, w1) := by
  simp [serve, runHandlers, hg, hi, abortIndex]

/-! ## The Access Guard -/

/-- C8: on a protected route, a request with an empty `Authorization` header is
answered 401 "Authorization header is required", and one whose header is not
empty but is not `"Bearer "` followed by a token is answered 401 "Invalid
token format".  In both cases the chain is aborted and the outcome is the
given context and the untouched world whatever the guarded handler is: the
handler has not run, the key store of the context is as it was (no subject
attached), and the trace of the world has no new event (no store lookup, no
signature verification). -/
theorem AuthMiddleware_rejects_missing_or_malformed (x : Ext) (handler : Step)
    (c : Context) (w : World) :
    (c.GetHeader "Authorization" = "" →
      protectedRoute x handler c w =
        ({ c with
            index := abortIndex + 1
            written := c.written ++
              [.json 401 { Error := true, Code := 401,
                           Message := "Authorization header is required", Data := .nil }] },
         w)) ∧
    (c.GetHeader "Authorization" ≠ "" →
      (∀ t, c.GetHeader "Authorization" ≠ "Bearer " ++ t) →
      protectedRoute x handler c w =
        ({ c with
            index := abortIndex + 1
            written := c.written ++
              [.json 401 { Error := true, Code := 401,
                           Message := "Invalid token format", Data := .nil }] },
         w)) := by
  constructor
  · intro h0
    have h0' : c.header "Authorization" = "" := h0
    have := serve_of_abort (AuthMiddleware x) handler c w
      ((SendResponse { c with index := 0 } 401 "Authorization header is required" .nil
        true).Abort) w
      (by intro next; simp [AuthMiddleware, Context.GetHeader, h0']) rfl
    simpa [protectedRoute, SendResponse, Context.JSON, Context.Abort] using this
  · intro hne hpre
    have hne' : c.header "Authorization" ≠ "" := hne
    have htrim : TrimPrefix (c.header "Authorization") "Bearer " = c.header "Authorization" :=
      (TrimPrefix_eq_self_iff _ _ (by decide)).mpr hpre
    have := serve_of_abort (AuthMiddleware x) handler c w
      ((SendResponse { c with index := 0 } 401 "Invalid token format" .nil true).Abort) w
      (by intro next; simp [AuthMiddleware, Context.GetHeader, hne', htrim]) rfl
    simpa [protectedRoute, SendResponse, Context.JSON, Context.Abort] using this

/-- Witness of C8: a request without header and a request with the header
`Basic abc`, both on the logout route over an empty store. -/
theorem AuthMiddleware_rejects_missing_or_malformed_witness :
    (protectedRoute demoExt (AuthHandler.Logout demoExt) (demoRequest "") demoWorld).1.written =
        [.json 401 { Error := true, Code := 401,
                     Message := "Authorization header is required", Data := .nil }] ∧
    (protectedRoute demoExt (AuthHandler.Logout demoExt) (demoRequest "Basic abc")
        demoWorld).1.written =
        [.json 401 { Error := true, Code := 401,
                     Message := "Invalid token format", Data := .nil }] := by
  have h1 := (AuthMiddleware_rejects_missing_or_malformed demoExt (AuthHandler.Logout demoExt)
    (demoRequest "") demoWorld).1 (by decide)
  have h2 := (AuthMiddleware_rejects_missing_or_malformed demoExt (AuthHandler.Logout demoExt)
    (demoRequest "Basic abc") demoWorld).2 (by decide)
    (ne_bearer_of_take _ (by decide))
  rw [h1, h2]
  exact ⟨rfl, rfl⟩

/-- C9, counterexample: the store holds a blacklist entry for the token `abc`,
the lookup of that entry fails with a transport error, and the token verifies:
the guard admits the request, attaches subject 7 and runs the guarded handler. -/
theorem AuthMiddleware_admits_blacklisted_when_lookup_fails :
    blacklistedWorld.held lookupFailsExt.redisNow ("blacklist:" ++ "abc") = some "7" ∧
    (protectedRoute lookupFailsExt demoHandler (demoRequest "Bearer abc")
        blacklistedWorld).1.written =
      [.json 200 { Error := false, Code := 200, Message := "handler ran", Data := .nil }] ∧
    (protectedRoute lookupFailsExt demoHandler (demoRequest "Bearer abc")
        blacklistedWorld).1.keys "userID" = some 7 ∧
    (protectedRoute lookupFailsExt demoHandler (demoRequest "Bearer abc")
        blacklistedWorld).2.trace =
      [.redisGet "blacklist:abc", .jwtParse "abc" ""] := by
  decide

/-- C9, amended: when the header is `"Bearer " ++ t`, the lookup of
`"blacklist:" ++ t` returns without error and the store holds a value under
that key, the guard answers 401 "Token is blacklisted" and aborts the chain.
The outcome is the given context and world whatever the guarded handler and
whatever `jwt.Parse` would say: the only new event in the trace is the store
lookup, so no signature or expiry verification has taken place. -/
theorem AuthMiddleware_rejects_blacklisted (x : Ext) (handler : Step) (c : Context) (w : World)
    (t v : String)
    (hheader : c.GetHeader "Authorization" = "Bearer " ++ t)
    (hlookup : x.redisGetErr = none)
    (hheld : w.held x.redisNow ("blacklist:" ++ t) = some v) :
    protectedRoute x handler c w =
      ({ c with
          index := abortIndex + 1
          written := c.written ++
            [.json 401 { Error := true, Code := 401,
                         Message := "Token is blacklisted", Data := .nil }] },
       w.log (.redisGet ("blacklist:" ++ t))) := by
  have hh : c.header "Authorization" = "Bearer " ++ t := hheader
  have hheld' : (w.log (.redisGet ("blacklist:" ++ t))).held x.redisNow ("blacklist:" ++ t)
      = some v := hheld
  have := serve_of_abort (AuthMiddleware x) handler c w
    ((SendResponse { c with index := 0 } 401 "Token is blacklisted" .nil true).Abort)
    (w.log (.redisGet ("blacklist:" ++ t)))
    (by
      intro next
      simp [AuthMiddleware, Context.GetHeader, hh, bearer_append_ne_empty, TrimPrefix_append,
        ne_bearer_append, redisGet, hlookup, hheld'])
    rfl
  simpa [protectedRoute, SendResponse, Context.JSON, Context.Abort] using this

/-- Witness of C9 amended: the token `abc` is blacklisted and the lookup
succeeds. -/
theorem AuthMiddleware_rejects_blacklisted_witness :
    protectedRoute demoExt demoHandler (demoRequest "Bearer abc") blacklistedWorld =
      ({ demoRequest "Bearer abc" with
          index := abortIndex + 1
          written := (demoRequest "Bearer abc").written ++
            [.json 401 { Error := true, Code := 401,
                         Message := "Token is blacklisted", Data := .nil }] },
       blacklistedWorld.log (.redisGet ("blacklist:" ++ "abc"))) :=
  AuthMiddleware_rejects_blacklisted demoExt demoHandler (demoRequest "Bearer abc")
    blacklistedWorld "abc" "7" (by decide) (by decide) (by decide)

/-! ## The federation callback -/

theorem initGoogleOAuthConfig_frame (x : Ext) (w : World) :
    (AuthHandler.initGoogleOAuthConfig x w).2.trace = w.trace ∧
    (AuthHandler.initGoogleOAuthConfig x w).2.users = w.users ∧
    (AuthHandler.initGoogleOAuthConfig x w).2.redis = w.redis := by
  unfold AuthHandler.initGoogleOAuthConfig
  cases w.googleOauthConfig <;> simp

/-- C10: a callback whose `state` query parameter differs from the server held
state value is answered with the envelope 400 "Invalid state" and nothing
else; the trace of the world is as before, so `HandleGoogleCallback` (whose
first act is the authorization code exchange) was not invoked, and neither the
user table nor the session store has changed. -/
theorem GoogleCallback_rejects_state_mismatch (x : Ext) (c : Context) (w : World)
    (hstate : c.Query "state" ≠ AuthHandler.randomState) :
    (AuthHandler.GoogleCallback x c w).1 =
      { c with
        written := c.written ++
          [.json 400 { Error := true, Code := 400, Message := "Invalid state", Data := .nil }] } ∧
    (AuthHandler.GoogleCallback x c w).2.trace = w.trace ∧
    (AuthHandler.GoogleCallback x c w).2.users = w.users ∧
    (AuthHandler.GoogleCallback x c w).2.redis = w.redis := by
  have hq : c.query "state" ≠ AuthHandler.randomState := hstate
  have hf := initGoogleOAuthConfig_frame x w
  simp [AuthHandler.GoogleCallback, Context.Query, hq, SendResponse, Context.JSON, hf]

/-- Witness of C10: a callback without any `state` parameter. -/
theorem GoogleCallback_rejects_state_mismatch_witness :
    (AuthHandler.GoogleCallback demoExt (demoRequest "") demoWorld).1 =
      { demoRequest "" with
        written := (demoRequest "").written ++
          [.json 400 { Error := true, Code := 400, Message := "Invalid state", Data := .nil }] } ∧
    (AuthHandler.GoogleCallback demoExt (demoRequest "") demoWorld).2.trace = demoWorld.trace ∧
    (AuthHandler.GoogleCallback demoExt (demoRequest "") demoWorld).2.users = demoWorld.users ∧
    (AuthHandler.GoogleCallback demoExt (demoRequest "") demoWorld).2.redis = demoWorld.redis :=
  GoogleCallback_rejects_state_mismatch demoExt (demoRequest "") demoWorld (by decide)

/-! ## Logout and the blacklist -/

/-- The key under which the Logout handler blacklists the header
`"Bearer " ++ t` is never the key the guard looks up for that header. -/
theorem Logout_key_ne_guard_key (t : String) :
    "blacklist:" ++ ("Bearer " ++ t) ≠ "blacklist:" ++ TrimPrefix ("Bearer " ++ t) "Bearer " := by
  rw [TrimPrefix_append]
  intro h
  have hd := congrArg String.data h
  simp only [String.data_append] at hd
  have hd' := List.append_cancel_left hd
  rw [← String.data_append] at hd'
  exact ne_bearer_append t (String.ext hd').symm

/-- C1, the code at the failing input: a request with the header `Bearer abc`
passes the guard and logs out with both store writes succeeding.  The entry
is written under `blacklist:Bearer abc`, while the guard looks up
`blacklist:abc`, which the store still does not hold; a second request with
the same header passes the guard and reaches the guarded handler. -/
theorem Logout_blacklists_under_another_key :
    (logoutRoute demoExt (demoRequest "Bearer abc") demoWorld).1.written =
      [.json 200 { Error := false, Code := 200, Message := "Logout successful", Data := .nil }] ∧
    (logoutRoute demoExt (demoRequest "Bearer abc") demoWorld).2.trace =
      [.redisGet "blacklist:abc", .jwtParse "abc" "",
       .redisSet "blacklist:Bearer abc" "7" (24 * Hour), .redisDel "user:7:refresh_token"] ∧
    (logoutRoute demoExt (demoRequest "Bearer abc") demoWorld).2.held demoExt.redisNow
      "blacklist:Bearer abc" = some "7" ∧
    (logoutRoute demoExt (demoRequest "Bearer abc") demoWorld).2.held demoExt.redisNow
      "blacklist:abc" = none ∧
    (protectedRoute demoExt demoHandler (demoRequest "Bearer abc")
        (logoutRoute demoExt (demoRequest "Bearer abc") demoWorld).2).1.written =
      [.json 200 { Error := false, Code := 200, Message := "handler ran", Data := .nil }] ∧
    (protectedRoute demoExt demoHandler (demoRequest "Bearer abc")
        (logoutRoute demoExt (demoRequest "Bearer abc") demoWorld).2).1.keys "userID" =
      some 7 := by
  decide

/-! ## Expiry of access tokens and of revocation entries -/

/-- C2, the code at the failing input: with no `JWT_EXPIRATION` set and the
clock at 1700000000 seconds after the epoch, `GenerateJWT` signs the claims
`user_id = 1`, `exp = 86400000000000`: the nanosecond count of the 24 hour
duration, not the Unix time 1700086400 of now plus 24 hours; and the claims
are the same at any other reading of the clock. -/
theorem GenerateJWT_exp_is_the_duration :
    demoExt.now = 1700000000 * Second ∧
    JWTExpiration demoExt = 86400 * Second ∧
    (GenerateJWT demoExt 1 demoWorld).2.trace =
      [.signedString { user_id := 1, exp := 86400000000000 } ""] ∧
    (jwtClaims demoExt 1).exp ≠ 1700000000 + 86400 ∧
    expInstant (jwtClaims demoExt 1) ≠ demoExt.now + JWTExpiration demoExt ∧
    (∀ t : Int, jwtClaims { demoExt with now := t } 1 = jwtClaims demoExt 1) := by
  refine ⟨by decide, by decide, by decide, by decide, by decide, ?_⟩
  intro t
  rfl

/-- C3, the code at the failing input: the token of subject 7 issued with no
`JWT_EXPIRATION` set records the expiry instant 86400000000000 seconds after
the epoch; a logout at 1700000000 seconds after the epoch writes a revocation
entry (under the key the handler passes) that expires 24 hours later, at 1700086400 seconds, which is earlier. -/
theorem Logout_entry_expires_before_token :
    expInstant (jwtClaims demoExt 7) = 86400000000000 * Second ∧
    ((AuthUseCase.Logout demoExt 7 "Bearer abc" demoWorld).2.redis "blacklist:Bearer abc").map
        RedisEntry.expireAt = some (some (1700086400 * Second)) ∧
    demoExt.redisNow + saturate ((demoExt.now + JWTExpiration demoExt) - demoExt.nowUntil) =
      1700086400 * Second ∧
    1700086400 * Second < expInstant (jwtClaims demoExt 7) := by
  decide

/-! ## Refresh tokens -/

/-- What `RefreshToken` does when the lookup returns the presented token. -/
theorem RefreshToken_of_match (x : Ext) (u : Nat) (r : String) (w : World)
    (hlookup : x.redisGetErr = none)
    (hheld : w.held x.redisNow (refreshKey u) = some r) :
    AuthUseCase.RefreshToken x u r w =
      (match x.SignedString (jwtClaims x u) (x.getEnv "JWT_SECRET") with
        | .error e => ("", some ("failed to generate access token: " ++ e))
        | .ok tok => (tok, none),
       (w.log (.redisGet (refreshKey u))).log
         (.signedString (jwtClaims x u) (x.getEnv "JWT_SECRET"))) := by
  have hheld' : (w.log (.redisGet (refreshKey u))).held x.redisNow (refreshKey u) = some r :=
    hheld
  simp only [AuthUseCase.RefreshToken, redisGet, hlookup, hheld', GenerateJWT]
  cases x.SignedString (jwtClaims x u) (x.getEnv "JWT_SECRET") <;> simp

/-- What `RefreshToken` does when the lookup does not return the presented
token: an error, the empty token, and no event after the lookup. -/
theorem RefreshToken_of_mismatch (x : Ext) (u : Nat) (r : String) (w : World)
    (h : x.redisGetErr ≠ none ∨ w.held x.redisNow (refreshKey u) = none ∨
      ∃ s, w.held x.redisNow (refreshKey u) = some s ∧ s ≠ r) :
    (AuthUseCase.RefreshToken x u r w).1.1 = "" ∧
    (AuthUseCase.RefreshToken x u r w).1.2 ≠ none ∧
    (AuthUseCase.RefreshToken x u r w).2 = w.log (.redisGet (refreshKey u)) := by
  have hlog : ∀ k, (w.log (.redisGet (refreshKey u))).held x.redisNow k = w.held x.redisNow k :=
    fun _ => rfl
  rcases h with h | h | ⟨s, hs, hne⟩
  · cases he : x.redisGetErr with
    | none => exact absurd he h
    | some e => simp [AuthUseCase.RefreshToken, redisGet, he]
  · cases he : x.redisGetErr with
    | some e => simp [AuthUseCase.RefreshToken, redisGet, he]
    | none => simp [AuthUseCase.RefreshToken, redisGet, he, hlog, h]
  · cases he : x.redisGetErr with
    | some e => simp [AuthUseCase.RefreshToken, redisGet, he]
    | none => simp [AuthUseCase.RefreshToken, redisGet, he, hlog, hs, hne]

/-- C5: when the lookup returns without error, the store holds the value `r`
under the refresh key of subject `u`, and signing succeeds with `tok`,
`RefreshToken` returns `tok` and no error, `tok` being the signature over
claims whose `user_id` is `u`.  When the lookup fails, or the store holds
nothing under the key, or it holds a value other than `r`, `RefreshToken`
returns the empty token and an error, and the only event it adds to the trace
is the lookup: `GenerateJWT` has not been invoked. -/
theorem RefreshToken_issues_only_for_stored_token (x : Ext) (u : Nat) (r : String) (w : World) :
    (∀ tok, x.redisGetErr = none → w.held x.redisNow (refreshKey u) = some r →
      x.SignedString (jwtClaims x u) (x.getEnv "JWT_SECRET") = .ok tok →
      (AuthUseCase.RefreshToken x u r w).1 = (tok, none) ∧ (jwtClaims x u).user_id = u) ∧
    ((x.redisGetErr ≠ none ∨ w.held x.redisNow (refreshKey u) = none ∨
        ∃ s, w.held x.redisNow (refreshKey u) = some s ∧ s ≠ r) →
      (AuthUseCase.RefreshToken x u r w).1.1 = "" ∧
      (AuthUseCase.RefreshToken x u r w).1.2 ≠ none ∧
      (AuthUseCase.RefreshToken x u r w).2.trace = w.trace ++ [.redisGet (refreshKey u)]) := by
  constructor
  · intro tok hlookup hheld hsign
    rw [RefreshToken_of_match x u r w hlookup hheld, hsign]
    exact ⟨rfl, rfl⟩
  · intro h
    obtain ⟨h1, h2, h3⟩ := RefreshToken_of_mismatch x u r w h
    exact ⟨h1, h2, by rw [h3]; rfl⟩

/-- Witness of C5: the store holds `AA==` for subject 7; presenting `AA==`
yields the token `jwt:7`, presenting `other` yields an error. -/
theorem RefreshToken_issues_only_for_stored_token_witness :
    (AuthUseCase.RefreshToken demoExt 7 "AA==" refreshWorld).1 = ("jwt:7", none) ∧
    (AuthUseCase.RefreshToken demoExt 7 "other" refreshWorld).1.1 = "" ∧
    (AuthUseCase.RefreshToken demoExt 7 "other" refreshWorld).1.2 ≠ none ∧
    (AuthUseCase.RefreshToken demoExt 7 "other" refreshWorld).2.trace =
      refreshWorld.trace ++ [.redisGet (refreshKey 7)] :=
  ⟨((RefreshToken_issues_only_for_stored_token demoExt 7 "AA==" refreshWorld).1 "jwt:7"
      (by decide) (by decide) rfl).1,
   (RefreshToken_issues_only_for_stored_token demoExt 7 "other" refreshWorld).2
      (Or.inr (Or.inr ⟨"AA==", by decide, by decide⟩))⟩

/-- The time to live of a refresh token is the configured expiration with the
part below one millisecond dropped: a Login with `JWT_EXPIRATION=1h0m0.0005s`
stores an entry that expires 3600 seconds later, and a `RefreshToken` with the
issued token 3600 seconds after the Login finds nothing.  With
`JWT_EXPIRATION=500us` the client sends `px 0`, the server refuses the
command and the Login fails. -/
theorem Login_time_to_live_is_floored :
    JWTExpiration fractionalTTLExt = 3600 * Second + 500000 ∧
    setExpiry (JWTExpiration fractionalTTLExt) = .px 3600000 ∧
    (AuthUseCase.Login fractionalTTLExt "a@x.com" "pw" registeredWorld).1 =
      ("jwt:7", "BB==", none) ∧
    (AuthUseCase.Login fractionalTTLExt "a@x.com" "pw" registeredWorld).2.redis
        (refreshKey 7) =
      some { value := "BB==", expireAt := some ((1700000000 + 3600) * Second) } ∧
    (AuthUseCase.RefreshToken hourLaterExt 7 "BB=="
      (AuthUseCase.Login fractionalTTLExt "a@x.com" "pw" registeredWorld).2).1 =
        ("", some "invalid or expired refresh token: redis: nil") ∧
    setExpiry (JWTExpiration subMillisecondTTLExt) = .px 0 ∧
    (AuthUseCase.Login subMillisecondTTLExt "a@x.com" "pw" registeredWorld).1 =
      ("", "", some "failed to store refresh token: ERR invalid expire time in set") := by
  decide

/-- C6, counterexample: the user table is empty, `Create` succeeds with id 1
and signing then fails.  `Register` returns an error and two empty tokens,
and the user table now contains the Identity with id 1. -/
theorem Register_error_keeps_created_identity :
    (AuthUseCase.Register signFailsExt demoRegister demoWorld).1 =
      ("", "", some "failed to generate access token: key is of an invalid type") ∧
    demoWorld.users = [] ∧
    (AuthUseCase.Register signFailsExt demoRegister demoWorld).2.users =
      [{ ID := 1, Email := "a@x.com", Password := "hash:pw", Name := "A",
         Provider := "", ProviderID := "" }] := by
  decide

/-- C6, amended: whenever `Register` returns an error, both tokens are empty
and the session store is as before (no refresh token entry written).  The user
table is as before when the lookup found the email, hashing failed or `Create`
failed; when the lookup found nothing, hashing succeeded and `Create`
succeeded, the user table has gained exactly the Identity just created. -/
theorem Register_error_frame (x : Ext) (req : RegisterRequest) (w : World)
    (herr : (AuthUseCase.Register x req w).1.2.2 ≠ none) :
    (AuthUseCase.Register x req w).1.1 = "" ∧
    (AuthUseCase.Register x req w).1.2.1 = "" ∧
    (AuthUseCase.Register x req w).2.redis = w.redis ∧
    (((∃ u, (FindByEmail x req.Email w).1 = .ok u) ∨
        (∃ e, x.HashPassword req.Password = .error e) ∨
        (∃ e, x.dbInsert = .error e)) →
      (AuthUseCase.Register x req w).2.users = w.users) ∧
    (∀ e hashed id, (FindByEmail x req.Email w).1 = .error e →
      x.HashPassword req.Password = .ok hashed → x.dbInsert = .ok id →
      (AuthUseCase.Register x req w).2.users =
        w.users ++ [{ ID := id, Email := req.Email, Password := hashed, Name := req.Name,
                      Provider := "", ProviderID := "" }]) := by
  unfold AuthUseCase.Register at herr ⊢
  rcases hfe : FindByEmail x req.Email w with ⟨found, wf⟩
  have hwf : wf.users = w.users ∧ wf.redis = w.redis := by
    unfold FindByEmail at hfe
    cases hsel : x.dbSelectErr with
    | some e => simp [hsel] at hfe; rw [← hfe.2]; exact ⟨rfl, rfl⟩
    | none =>
      simp only [hsel] at hfe
      split at hfe <;> (simp at hfe; rw [← hfe.2]; exact ⟨rfl, rfl⟩)
  rw [hfe] at herr
  simp only at herr ⊢
  cases found with
  | ok u => simp [hwf]
  | error e0 =>
    simp only at herr ⊢
    cases hh : x.HashPassword req.Password with
    | error e => simp [hwf, World.log]
    | ok hashed =>
      simp only [hh, Create] at herr ⊢
      cases hi : x.dbInsert with
      | error e => simp [hwf, World.log]
      | ok id =>
        simp only [hi, GenerateJWT] at herr ⊢
        cases hsig : x.SignedString (jwtClaims x id) (x.getEnv "JWT_SECRET") with
        | error e => simp [hwf, World.log]
        | ok tok =>
          simp only [hsig, GenerateRefreshToken] at herr ⊢
          cases hr : x.randRead with
          | error e => simp [hwf, World.log]
          | ok bytes =>
            simp only [hr, redisSet] at herr ⊢
            cases hs : x.redisSetErr with
            | some e => simp [hwf, World.log]
            | none =>
              simp only [hs] at herr ⊢
              cases ht : (setExpiry (JWTExpiration x)).ttl with
              | none => simp [ht] at herr
              | some ttl =>
                simp only [ht] at herr ⊢
                by_cases hpos : ttl ≤ 0
                · simp [hpos, hwf, World.log]
                · simp [hpos] at herr

/-- C7, counterexample: the user table holds an Identity with the email
`a@x.com`, and the lookup of a Register request for that email fails with a
driver error.  `Register` goes on to hash the password and calls `Create`
with a new Identity for the same email. -/
theorem Register_calls_Create_when_lookup_fails :
    (∃ u ∈ registeredWorld.users, u.Email = demoRegister.Email) ∧
    (AuthUseCase.Register selectFailsExt demoRegister registeredWorld).2.trace =
      [.dbFindByEmail "a@x.com", .hashPassword "pw",
       .dbCreate { ID := 0, Email := "a@x.com", Password := "hash:pw", Name := "A",
                   Provider := "", ProviderID := "" }] := by
  decide

/-- C7, amended: when the email of the request belongs to an Identity of the
user table and the lookup returns without a driver error, `Register` returns
the error "user already exists" with two empty tokens, and the world is as
before except for the lookup event in the trace: `Create` was not called, the
user table has no new Identity and the session store no new entry. -/
theorem Register_rejects_existing_email (x : Ext) (req : RegisterRequest) (w : World)
    (hlookup : x.dbSelectErr = none)
    (hexists : ∃ u ∈ w.users, u.Email = req.Email) :
    AuthUseCase.Register x req w =
      (("", "", some "user already exists"), w.log (.dbFindByEmail req.Email)) := by
  have hfind : ∃ u, w.users.find? (fun u => decide (u.Email = req.Email)) = some u := by
    rw [← Option.isSome_iff_exists, List.find?_isSome]
    obtain ⟨u, hu, he⟩ := hexists
    exact ⟨u, hu, by simpa using he⟩
  obtain ⟨u, hu⟩ := hfind
  have hu' : (w.log (.dbFindByEmail req.Email)).users.find?
      (fun u => decide (u.Email = req.Email)) = some u := hu
  simp [AuthUseCase.Register, FindByEmail, hlookup, hu']

/-- Witness of C7 amended: `a@x.com` is registered and the lookup succeeds. -/
theorem Register_rejects_existing_email_witness :
    AuthUseCase.Register demoExt demoRegister registeredWorld =
      (("", "", some "user already exists"),
       registeredWorld.log (.dbFindByEmail demoRegister.Email)) :=
  Register_rejects_existing_email demoExt demoRegister registeredWorld (by decide) (by decide)

/-- Witness of C6 amended: the run in which signing fails after `Create`. -/
theorem Register_error_frame_witness :
    (AuthUseCase.Register signFailsExt demoRegister demoWorld).1.1 = "" ∧
    (AuthUseCase.Register signFailsExt demoRegister demoWorld).2.redis = demoWorld.redis ∧
    (AuthUseCase.Register signFailsExt demoRegister demoWorld).2.users =
      demoWorld.users ++ [{ ID := 1, Email := "a@x.com", Password := "hash:pw", Name := "A",
                            Provider := "", ProviderID := "" }] :=
  have h := Register_error_frame signFailsExt demoRegister demoWorld (by decide)
  ⟨h.1, h.2.2.1, h.2.2.2.2 "user not found" "hash:pw" 1 rfl rfl rfl⟩

/-! ## The configured expiration -/

/-- C11: `JWTExpiration` returns 24 hours (86400 seconds) when the
`JWT_EXPIRATION` setting is empty or `time.ParseDuration` rejects it, and
otherwise returns the duration `time.ParseDuration` yields, whatever integer
that is. -/
theorem JWTExpiration_default_or_parsed (x : Ext) :
    ((x.getEnv "JWT_EXPIRATION" = "" ∨
        ∃ e, x.ParseDuration (x.getEnv "JWT_EXPIRATION") = .error e) →
      JWTExpiration x = 24 * Hour ∧ JWTExpiration x = 86400 * Second) ∧
    (∀ d : Duration, x.getEnv "JWT_EXPIRATION" ≠ "" →
      x.ParseDuration (x.getEnv "JWT_EXPIRATION") = .ok d →
      JWTExpiration x = d) := by
  have h24 : (24 : Int) * Hour = 86400 * Second := by decide
  constructor
  · rintro (h | ⟨e, h⟩)
    · simp [JWTExpiration, h, h24]
    · by_cases h0 : x.getEnv "JWT_EXPIRATION" = ""
      · simp [JWTExpiration, h0, h24]
      · simp [JWTExpiration, h0, h, h24]
  · intro d h0 h
    simp [JWTExpiration, h0, h]

/-- Witness of C11: no setting, the unparsable setting `soon`, and the setting
`-30m`. -/
theorem JWTExpiration_default_or_parsed_witness :
    JWTExpiration demoExt = 24 * Hour ∧
    JWTExpiration unparsableTTLExt = 24 * Hour ∧
    JWTExpiration negativeTTLExt = -1800 * Second :=
  ⟨((JWTExpiration_default_or_parsed demoExt).1 (Or.inl (by decide))).1,
   ((JWTExpiration_default_or_parsed unparsableTTLExt).1
      (Or.inr ⟨"time: invalid duration soon", rfl⟩)).1,
   (JWTExpiration_default_or_parsed negativeTTLExt).2 (-1800 * Second) (by decide) rfl⟩

/-! ## The revocation check fails open -/

/-- C12: for a request with the header `"Bearer " ++ t`, whatever the rest of
the chain `next` is.  When the lookup of `"blacklist:" ++ t` returns a value
without error, the guard answers 401 "Token is blacklisted" and no
verification takes place.  When the lookup returns an error, be it a
transport error or the absence of the key, the guard goes on to `jwt.Parse`
(the event is in the trace) and ends in one of: 401 "Invalid token", 401
"Invalid token claims", a panic on the `user_id` claim, or the call of `next`
with the subject attached; it never answers "Token is blacklisted" itself.
In particular, when the lookup fails with a transport error and the token
verifies, the request is admitted whatever the store holds for the token. -/
theorem AuthMiddleware_revocation_check_fails_open (x : Ext) (next : Step) (c : Context)
    (w : World) (t : String)
    (hheader : c.GetHeader "Authorization" = "Bearer " ++ t) :
    (∀ v, x.redisGetErr = none → w.held x.redisNow ("blacklist:" ++ t) = some v →
      AuthMiddleware x next c w =
        ((SendResponse c 401 "Token is blacklisted" .nil true).Abort,
         w.log (.redisGet ("blacklist:" ++ t)))) ∧
    ((x.redisGetErr ≠ none ∨ w.held x.redisNow ("blacklist:" ++ t) = none) →
      (AuthMiddleware x next c w =
          ((SendResponse c 401 "Invalid token" .nil true).Abort,
           (w.log (.redisGet ("blacklist:" ++ t))).log
             (.jwtParse t (x.getEnv "JWT_SECRET"))) ∨
        AuthMiddleware x next c w =
          ((SendResponse c 401 "Invalid token claims" .nil true).Abort,
           (w.log (.redisGet ("blacklist:" ++ t))).log
             (.jwtParse t (x.getEnv "JWT_SECRET"))) ∨
        AuthMiddleware x next c w =
          (c.AbortWithStatus 500,
           (w.log (.redisGet ("blacklist:" ++ t))).log
             (.jwtParse t (x.getEnv "JWT_SECRET"))) ∨
        ∃ userID, AuthMiddleware x next c w =
          next (c.Set "userID" userID)
            ((w.log (.redisGet ("blacklist:" ++ t))).log
              (.jwtParse t (x.getEnv "JWT_SECRET"))))) ∧
    (∀ token userID, (x.redisGetErr ≠ none ∨ w.held x.redisNow ("blacklist:" ++ t) = none) →
      x.Parse t (x.getEnv "JWT_SECRET") = .ok token →
      token.Valid = true → token.isMapClaims = true → token.user_id = some userID →
      AuthMiddleware x next c w =
        next (c.Set "userID" userID)
          ((w.log (.redisGet ("blacklist:" ++ t))).log
            (.jwtParse t (x.getEnv "JWT_SECRET")))) := by
  have hh : c.header "Authorization" = "Bearer " ++ t := hheader
  have hlog : (w.log (.redisGet ("blacklist:" ++ t))).held x.redisNow ("blacklist:" ++ t) =
      w.held x.redisNow ("blacklist:" ++ t) := rfl
  have hget : (x.redisGetErr ≠ none ∨ w.held x.redisNow ("blacklist:" ++ t) = none) →
      ∃ e, redisGet x ("blacklist:" ++ t) w = (.error e, w.log (.redisGet ("blacklist:" ++ t))) := by
    intro h
    cases he : x.redisGetErr with
    | some e => exact ⟨e, by simp [redisGet, he]⟩
    | none =>
      rcases h with h | h
      · exact absurd he h
      · exact ⟨"redis: nil", by simp [redisGet, he, hlog, h]⟩
  refine ⟨?_, ?_, ?_⟩
  · intro v hlookup hheld
    simp [AuthMiddleware, Context.GetHeader, hh, bearer_append_ne_empty, TrimPrefix_append,
      ne_bearer_append, redisGet, hlookup, hlog, hheld]
  · intro h
    obtain ⟨e, hg⟩ := hget h
    cases hp : x.Parse t (x.getEnv "JWT_SECRET") with
    | error e' =>
      left
      simp [AuthMiddleware, Context.GetHeader, hh, bearer_append_ne_empty, TrimPrefix_append,
        ne_bearer_append, hg, hp]
    | ok token =>
      by_cases hv : token.Valid = true
      · by_cases hm : token.isMapClaims = true
        · cases hu : token.user_id with
          | none =>
            right; right; left
            simp [AuthMiddleware, Context.GetHeader, hh, bearer_append_ne_empty,
              TrimPrefix_append, ne_bearer_append, hg, hp, hv, hm, hu]
          | some userID =>
            right; right; right
            exact ⟨userID, by
              simp [AuthMiddleware, Context.GetHeader, hh, bearer_append_ne_empty,
                TrimPrefix_append, ne_bearer_append, hg, hp, hv, hm, hu]⟩
        · right; left
          simp [AuthMiddleware, Context.GetHeader, hh, bearer_append_ne_empty,
            TrimPrefix_append, ne_bearer_append, hg, hp, hv, hm]
      · left
        simp [AuthMiddleware, Context.GetHeader, hh, bearer_append_ne_empty, TrimPrefix_append,
          ne_bearer_append, hg, hp, hv]
  · intro token userID h hp hv hm hu
    obtain ⟨e, hg⟩ := hget h
    simp [AuthMiddleware, Context.GetHeader, hh, bearer_append_ne_empty, TrimPrefix_append,
      ne_bearer_append, hg, hp, hv, hm, hu]

/-- Witness of C12: the store holds a blacklist entry for the token `abc`; when
the lookup succeeds the guard rejects the request, when the lookup fails with
a transport error the guard hands the request on with subject 7 attached. -/
theorem AuthMiddleware_revocation_check_fails_open_witness :
    AuthMiddleware demoExt demoHandler (demoRequest "Bearer abc") blacklistedWorld =
      ((SendResponse (demoRequest "Bearer abc") 401 "Token is blacklisted" .nil true).Abort,
       blacklistedWorld.log (.redisGet ("blacklist:" ++ "abc"))) ∧
    AuthMiddleware lookupFailsExt demoHandler (demoRequest "Bearer abc") blacklistedWorld =
      demoHandler ((demoRequest "Bearer abc").Set "userID" 7)
        ((blacklistedWorld.log (.redisGet ("blacklist:" ++ "abc"))).log
          (.jwtParse "abc" (lookupFailsExt.getEnv "JWT_SECRET"))) :=
  ⟨(AuthMiddleware_revocation_check_fails_open demoExt demoHandler (demoRequest "Bearer abc")
      blacklistedWorld "abc" (by decide)).1 "7" (by decide) (by decide),
   (AuthMiddleware_revocation_check_fails_open lookupFailsExt demoHandler
      (demoRequest "Bearer abc") blacklistedWorld "abc" (by decide)).2.2
      { Valid := true, isMapClaims := true, user_id := some 7 } 7
      (Or.inl (by decide)) rfl rfl rfl rfl⟩

end GoOAuth
